import Mathlib

/-!
# Verification of `paknob` (src/paknob.cc)

A shallow embedding of the command-parsing and callback logic of the
`paknob` PulseAudio command-line utility, together with theorems checking
the natural-language specification against it.

`pa_volume_t` is `uint32_t`; all volume arithmetic in the C++ source is
32-bit unsigned, so volumes are modelled as `Nat` with explicit `% 2^32`
at every operation where the C type could wrap.
-/

namespace Paknob

/-! ## Constants from `pulse/volume.h` -/

/-- `2^32`, the modulus of `uint32_t` (= `pa_volume_t`) arithmetic. -/
def U32 : Nat := 4294967296

/-- `PA_VOLUME_NORM` = `0x10000`: normal (100%) volume. -/
def PA_VOLUME_NORM : Nat := 65536

/-- `PA_VOLUME_MUTED` = 0. -/
def PA_VOLUME_MUTED : Nat := 0

/-- `PA_VOLUME_MAX` = `UINT32_MAX/2` = `2^31 - 1`. -/
def PA_VOLUME_MAX : Nat := 2147483647

/-- `PA_CHANNELS_MAX` = 32. -/
def PA_CHANNELS_MAX : Nat := 32

/-- `PA_VOLUME_IS_VALID(v)`: `v <= PA_VOLUME_MAX`. -/
def paVolumeIsValid (v : Nat) : Bool := v ≤ PA_VOLUME_MAX

/-- `PA_CLAMP_VOLUME(v)`: clamp to `[PA_VOLUME_MUTED, PA_VOLUME_MAX]`
(the lower clamp is trivial for unsigned values). -/
def paClampVolume (v : Nat) : Nat := min v PA_VOLUME_MAX

/-- `pa_cvolume_valid`: nonzero channel count, at most `PA_CHANNELS_MAX`
channels, every channel volume valid.  A `pa_cvolume` is modelled as the
list of its channel values. -/
def paCvolumeValid (vs : List Nat) : Bool :=
  0 < vs.length && vs.length ≤ PA_CHANNELS_MAX && vs.all (fun v => paVolumeIsValid v)

/-- `pa_cvolume_avg`: sum of the channel values (accumulated in `uint64_t`,
which cannot wrap for at most 32 valid channel values) divided by the
channel count; returns `PA_VOLUME_MUTED` on an invalid `pa_cvolume`. -/
def paCvolumeAvg (vs : List Nat) : Nat :=
  if paCvolumeValid vs then (vs.foldl (fun a v => a + v) 0) / vs.length
  else PA_VOLUME_MUTED

/-- `pa_cvolume_set(cv, channels, v)`: a `pa_cvolume` with `channels`
channels, every channel set to `PA_CLAMP_VOLUME(v)`. -/
def paCvolumeSet (channels : Nat) (v : Nat) : List Nat :=
  List.replicate channels (paClampVolume v)

/-! ## Models of the `absl` string-to-number conversions

These embed the behaviour of the two abseil library functions the source
calls (`absl/strings/numbers.h`); they are third-party dependencies, not
code of this repository. -/

/-- ASCII whitespace, as `absl::ascii_isspace`. -/
def isAsciiSpace (c : Char) : Bool :=
  c = ' ' || c = '\t' || c = '\n' || c = '\x0b' || c = '\x0c' || c = '\r'

/-- Strip ASCII whitespace from both ends of a character list
(`absl` `safe_parse_sign_and_base` consumes leading and trailing spaces). -/
def stripAsciiSpace (cs : List Char) : List Char :=
  ((cs.dropWhile isAsciiSpace).reverse.dropWhile isAsciiSpace).reverse

/-- Is `c` an ASCII decimal digit? -/
def isDigit (c : Char) : Bool := '0' ≤ c && c ≤ '9'

/-- Value of a nonempty all-digit character list, `none` otherwise. -/
def parseDigits (cs : List Char) : Option Nat :=
  if cs ≠ [] && cs.all isDigit then
    some (cs.foldl (fun a c => a * 10 + (c.toNat - 48)) 0)
  else none

/-- Models `absl::SimpleAtoi<uint32_t>` on a character list: strip
surrounding ASCII whitespace, allow one leading `+` (a `-` fails for an
unsigned target type), then a nonempty run of decimal digits whose value
fits in `uint32_t`; anything else fails. -/
def simpleAtoiU32Chars (cs : List Char) : Option Nat :=
  match stripAsciiSpace cs with
  | [] => none
  | c :: rest =>
    let body := if c = '+' then rest else c :: rest
    if c = '-' then none
    else match parseDigits body with
      | none => none
      | some n => if n < U32 then some n else none

/-- `absl::SimpleAtoi<uint32_t>` on a `String`. -/
def simpleAtoiU32 (s : String) : Option Nat := simpleAtoiU32Chars s.data

/-- ASCII lower-casing of one character. -/
def asciiToLower (c : Char) : Char :=
  if 'A' ≤ c && c ≤ 'Z' then Char.ofNat (c.toNat + 32) else c

/-- Models `absl::SimpleAtob`: case-insensitive match against
`true/t/yes/y/1` (giving `true`) or `false/f/no/n/0` (giving `false`);
anything else fails. -/
def simpleAtob (s : String) : Option Bool :=
  let t := String.mk (s.data.map asciiToLower)
  if t = "true" || t = "t" || t = "yes" || t = "y" || t = "1" then some true
  else if t = "false" || t = "f" || t = "no" || t = "n" || t = "0" then some false
  else none

/-! ## Subcommand argument parsing (`*Subcommand::Build`) -/

/-- `Subcommand::IsValid`: the first argument must equal the subcommand
name; on success the remaining arguments are returned. -/
def isValidName (name : String) (args : List String) : Option (List String) :=
  match args with
  | [] => none
  | a :: rest => if a = name then some rest else none

/-- `GetVolumeSubcommand::Build` / `GetMuteSubcommand::Build` /
`ToggleMuteSubcommand::Build`: name match, then no further arguments. -/
def noArgBuild (name : String) (args : List String) : Option Unit :=
  match isValidName name args with
  | none => none
  | some rest => if rest = [] then some () else none

/-- `SetVolumeSubcommand::Build`: name match, exactly one argument, parsed
by `SimpleAtoi` into a `pa_volume_t`; then `vol = vol * PA_VOLUME_NORM / 100`
in `uint32_t` arithmetic, accepted only if `PA_VOLUME_IS_VALID(vol)`.
Returns the internal volume `vol_`. -/
def setVolumeBuild (name : String) (args : List String) : Option Nat :=
  match isValidName name args with
  | none => none
  | some rest =>
    match rest with
    | [a] =>
      match simpleAtoiU32 a with
      | none => none
      | some p =>
        let vol := p * PA_VOLUME_NORM % U32 / 100
        if paVolumeIsValid vol then some vol else none
    | _ => none

/-- The parsed state of an increment/decrement subcommand: the effective
direction `neg_` and the internal delta `vol_adj_`. -/
structure AdjustCmd where
  neg : Bool
  vol_adj : Nat
deriving DecidableEq, Repr

/-- `AdjustVolumeSubcommand::Build` (template parameter `dec` is `true`
for the decrement variants): name match, exactly one argument; a leading
`-` is stripped and recorded, the effective direction is
`neg != dec` (exclusive or); the rest is parsed by `SimpleAtoi`,
scaled by `* PA_VOLUME_NORM / 100` in `uint32_t` arithmetic and
range-checked. -/
def adjustVolumeBuild (name : String) (dec : Bool) (args : List String) :
    Option AdjustCmd :=
  match isValidName name args with
  | none => none
  | some rest =>
    match rest with
    | [a] =>
      let negSign : Bool := decide (a.data.head? = some '-')
      let body : List Char := if negSign then a.data.tail else a.data
      let neg : Bool := xor negSign dec
      match simpleAtoiU32Chars body with
      | none => none
      | some p =>
        let vol := p * PA_VOLUME_NORM % U32 / 100
        if paVolumeIsValid vol then some ⟨neg, vol⟩ else none
    | _ => none

/-- `SetMuteSubcommand::Build`: name match, exactly one argument, parsed
by `SimpleAtob`. -/
def setMuteBuild (name : String) (args : List String) : Option Bool :=
  match isValidName name args with
  | none => none
  | some rest =>
    match rest with
    | [a] => simpleAtob a
    | _ => none

/-- The fully parsed command (`Subcommand::Build`'s result), tagged by
variant and device class (`sink = true` for the sink variants). -/
inductive Command where
  | getVolume (sink : Bool)
  | setVolume (sink : Bool) (vol : Nat)
  | adjVolume (sink : Bool) (neg : Bool) (volAdj : Nat)
  | getMute (sink : Bool)
  | setMute (sink : Bool) (mute : Bool)
  | toggleMute (sink : Bool)
deriving DecidableEq, Repr

/-- `Subcommand::Build`: try each subcommand's `Build` in source order;
the first success wins, and if none matches there is no command (the
caller prints usage and exits with failure). -/
def subcommandBuild (args : List String) : Option Command :=
  (Option.map (fun _ => Command.getVolume true) (noArgBuild "get-sink-volume" args)) <|>
  (Option.map (Command.setVolume true) (setVolumeBuild "set-sink-volume" args)) <|>
  (Option.map (fun c => Command.adjVolume true c.neg c.vol_adj)
    (adjustVolumeBuild "increment-sink-volume" false args)) <|>
  (Option.map (fun c => Command.adjVolume true c.neg c.vol_adj)
    (adjustVolumeBuild "decrement-sink-volume" true args)) <|>
  (Option.map (fun _ => Command.getVolume false) (noArgBuild "get-source-volume" args)) <|>
  (Option.map (Command.setVolume false) (setVolumeBuild "set-source-volume" args)) <|>
  (Option.map (fun c => Command.adjVolume false c.neg c.vol_adj)
    (adjustVolumeBuild "increment-source-volume" false args)) <|>
  (Option.map (fun c => Command.adjVolume false c.neg c.vol_adj)
    (adjustVolumeBuild "decrement-source-volume" true args)) <|>
  (Option.map (fun _ => Command.getMute true) (noArgBuild "get-sink-mute" args)) <|>
  (Option.map (Command.setMute true) (setMuteBuild "set-sink-mute" args)) <|>
  (Option.map (fun _ => Command.toggleMute true) (noArgBuild "toggle-sink-mute" args)) <|>
  (Option.map (fun _ => Command.getMute false) (noArgBuild "get-source-mute" args)) <|>
  (Option.map (Command.setMute false) (setMuteBuild "set-source-mute" args)) <|>
  (Option.map (fun _ => Command.toggleMute false) (noArgBuild "toggle-source-mute" args))

/-! ## Execution model (the callback chains)

Each subcommand issues one asynchronous get-info request against the
default device and, for the mutating variants, one follow-up mutation
request.  The server's behaviour at the info stage is either an error
(`is_last < 0` on the callback) or one data callback carrying the device
snapshot followed by the end-of-list marker (which the code ignores);
the mutation response is a success flag.  Each `run` function below
computes, from those externally chosen responses, the mutation request
sent (if any), the lines printed to stdout, and the run-loop exit code
(`quit(1)` on any server-reported failure, `quit(0)` reached through
drain → disconnect → `PA_CONTEXT_TERMINATED`). -/

/-- The device snapshot delivered to the info callback: channel volumes
and mute flag.  `info->channel_map.channels` always equals the channel
count of `info->volume` in a well-formed server reply, so it is modelled
as `volume.length`. -/
structure DeviceInfo where
  volume : List Nat
  mute : Bool
deriving DecidableEq, Repr

/-- The server's response to the get-info request: error (`is_last < 0`)
or one data callback with the snapshot. -/
inductive InfoResp where
  | err
  | data (info : DeviceInfo)
deriving DecidableEq, Repr

/-- The observable result of one command run: the `pa_cvolume` sent with a
set-volume request (if issued), the flag sent with a set-mute request (if
issued), the numbers printed to stdout (one line each), and the run-loop
exit code. -/
structure RunResult where
  sentVol : Option (List Nat)
  sentMute : Option Bool
  out : List Nat
  exit : Nat
deriving DecidableEq, Repr

/-- `Subcommand::PrintVolume`: prints
`(vol * 100 + PA_VOLUME_NORM / 2) / PA_VOLUME_NORM`, computed in
`uint32_t` arithmetic.  Returns the printed number. -/
def printVolume (v : Nat) : Nat :=
  (v * 100 + PA_VOLUME_NORM / 2) % U32 / PA_VOLUME_NORM

/-- `Subcommand::PrintMute`: prints `1` for muted, `0` for unmuted. -/
def printMute (m : Bool) : Nat := if m then 1 else 0

/-- `GetVolumeSubcommand::GetVolumeCB`: on error quit with failure; on
data print the average channel volume and drain (exit 0). -/
def getVolumeRun (resp : InfoResp) : RunResult :=
  match resp with
  | .err => ⟨none, none, [], 1⟩
  | .data info => ⟨none, none, [printVolume (paCvolumeAvg info.volume)], 0⟩

/-- `GetMuteSubcommand::GetMuteCB`: on error quit with failure; on data
print the mute flag and drain (exit 0). -/
def getMuteRun (resp : InfoResp) : RunResult :=
  match resp with
  | .err => ⟨none, none, [], 1⟩
  | .data info => ⟨none, none, [printMute info.mute], 0⟩

/-- `SetVolumeSubcommand::{GetVolumeCB, SetVolumeCB}`: on info error quit
with failure; otherwise send a set-volume request with every channel set
to `vol_` (via `pa_cvolume_set`); on an unsuccessful mutation response
quit with failure, otherwise print `vol_` and drain. -/
def setVolumeRun (vol : Nat) (resp : InfoResp) (setOk : Bool) : RunResult :=
  match resp with
  | .err => ⟨none, none, [], 1⟩
  | .data info =>
    let cv := paCvolumeSet info.volume.length vol
    if setOk then ⟨some cv, none, [printVolume vol], 0⟩
    else ⟨some cv, none, [], 1⟩

/-- One channel of `AdjustVolumeSubcommand::GetVolumeCB`'s loop: decrement
subtracts `min(value, vol_adj)` (no underflow possible); increment sets
`min(value + vol_adj, PA_VOLUME_MAX)`, the addition in `uint32_t`
arithmetic. -/
def adjustChannel (neg : Bool) (adj v : Nat) : Nat :=
  if neg then v - min v adj
  else min ((v + adj) % U32) PA_VOLUME_MAX

/-- The per-channel adjustment applied to the whole snapshot volume. -/
def adjustCvolume (neg : Bool) (adj : Nat) (vs : List Nat) : List Nat :=
  vs.map (adjustChannel neg adj)

/-- `AdjustVolumeSubcommand::{GetVolumeCB, SetVolumeCB}`: on info error
quit with failure; otherwise adjust every channel, remember the average of
the adjusted volume as `vol_`, and send it in a set-volume request; on an
unsuccessful mutation response quit with failure, otherwise print `vol_`
and drain. -/
def adjustVolumeRun (neg : Bool) (adj : Nat) (resp : InfoResp) (setOk : Bool) :
    RunResult :=
  match resp with
  | .err => ⟨none, none, [], 1⟩
  | .data info =>
    let cv := adjustCvolume neg adj info.volume
    let vol := paCvolumeAvg cv
    if setOk then ⟨some cv, none, [printVolume vol], 0⟩
    else ⟨some cv, none, [], 1⟩

/-- `SetMuteSubcommand::{GetInfoCB, SetMuteCB}`: on info error quit with
failure; otherwise remember `vol_ = mute_ ? PA_VOLUME_MUTED : avg` and
send a set-mute request with `mute_`; on an unsuccessful mutation response
quit with failure, otherwise print `vol_` and drain. -/
def setMuteRun (mute : Bool) (resp : InfoResp) (setOk : Bool) : RunResult :=
  match resp with
  | .err => ⟨none, none, [], 1⟩
  | .data info =>
    let vol := if mute then PA_VOLUME_MUTED else paCvolumeAvg info.volume
    if setOk then ⟨none, some mute, [printVolume vol], 0⟩
    else ⟨none, some mute, [], 1⟩

/-- `ToggleMuteSubcommand::{GetInfoCB, SetMuteCB}`: as set-mute, but the
requested flag is `!info->mute`, and
`vol_ = !info->mute ? PA_VOLUME_MUTED : avg`. -/
def toggleMuteRun (resp : InfoResp) (setOk : Bool) : RunResult :=
  match resp with
  | .err => ⟨none, none, [], 1⟩
  | .data info =>
    let vol := if !info.mute then PA_VOLUME_MUTED else paCvolumeAvg info.volume
    if setOk then ⟨none, some (!info.mute), [printVolume vol], 0⟩
    else ⟨none, some (!info.mute), [], 1⟩

/-! ## Helper lemmas -/

/-- `Subcommand::Build` on an argument list whose first token is
`set-sink-volume` reduces to `SetSinkVolumeSubcommand::Build`: every other
subcommand's `Build` fails its name check. -/
theorem subcommandBuild_setSinkVolume (rest : List String) :
    subcommandBuild ("set-sink-volume" :: rest) =
      Option.map (Command.setVolume true)
        (setVolumeBuild "set-sink-volume" ("set-sink-volume" :: rest)) := by
  unfold subcommandBuild
  cases h : setVolumeBuild "set-sink-volume" ("set-sink-volume" :: rest) <;> rfl

/-- `Subcommand::Build` on an argument list whose first token is
`set-source-volume` reduces to `SetSourceVolumeSubcommand::Build`. -/
theorem subcommandBuild_setSourceVolume (rest : List String) :
    subcommandBuild ("set-source-volume" :: rest) =
      Option.map (Command.setVolume false)
        (setVolumeBuild "set-source-volume" ("set-source-volume" :: rest)) := by
  unfold subcommandBuild
  cases h : setVolumeBuild "set-source-volume" ("set-source-volume" :: rest) <;> rfl

/-! ## Claim theorems -/

/-- Claim C1, counterexample: the claim says `increment-sink-volume 1000`
applied to a device at 90% yields 100% (clamped to max).  In the code the
clamp is at `PA_VOLUME_MAX` (≈32768%), not at 100%: the built delta for
argument `1000` is 655360 internal units, a device at 90% has internal
volume 58982 (and prints as 90), and running the increment prints 1090,
not 100. -/
theorem C1_counterexample :
    subcommandBuild ["increment-sink-volume", "1000"] =
      some (Command.adjVolume true false 655360) ∧
    setVolumeBuild "set-sink-volume" ["set-sink-volume", "90"] = some 58982 ∧
    printVolume 58982 = 90 ∧
    (adjustVolumeRun false 655360 (InfoResp.data ⟨[58982], false⟩) true).out = [1090] ∧
    (1090 : Nat) ≠ 100 := by
  refine ⟨by decide, by decide, by decide, by decide, by decide⟩

/-- Claim C1, amended: for every channel volume `v` and delta `adj` (both
valid volumes), increment sets `min(v + adj, PA_VOLUME_MAX)` — clamped
above to `PA_VOLUME_MAX`, not to 100% — and decrement sets `v - adj`
clamped below to 0; `increment-sink-volume 1000` from 90% yields 1090%,
and `decrement-sink-volume 1000` from 5% yields 0% (no underflow/wrap). -/
theorem C1_volume_adjust (v adj : Nat) (hv : v ≤ PA_VOLUME_MAX)
    (ha : adj ≤ PA_VOLUME_MAX) :
    adjustChannel false adj v = min (v + adj) PA_VOLUME_MAX ∧
    adjustChannel true adj v = v - adj ∧
    (adjustVolumeRun false 655360 (InfoResp.data ⟨[58982], false⟩) true).out = [1090] ∧
    (adjustVolumeRun true 655360 (InfoResp.data ⟨[3276], false⟩) true).out = [0] := by
  refine ⟨?_, ?_, by decide, by decide⟩
  · unfold adjustChannel PA_VOLUME_MAX U32 at *
    simp only [Bool.false_eq_true, if_false]
    omega
  · unfold adjustChannel
    simp only [if_true]
    omega

/-- Witness for `C1_volume_adjust` at `v = 58982`, `adj = 655360`. -/
theorem C1_volume_adjust_witness :
    adjustChannel false 655360 58982 = min (58982 + 655360) PA_VOLUME_MAX ∧
    adjustChannel true 655360 58982 = 58982 - 655360 ∧
    (adjustVolumeRun false 655360 (InfoResp.data ⟨[58982], false⟩) true).out = [1090] ∧
    (adjustVolumeRun true 655360 (InfoResp.data ⟨[3276], false⟩) true).out = [0] :=
  C1_volume_adjust 58982 655360 (by decide) (by decide)

/-- Claim C2: a `set-sink-volume`/`set-source-volume` invocation with one
argument is accepted exactly when the argument parses as a non-negative
integer and the internal volume `p * PA_VOLUME_NORM / 100`, computed in
32-bit unsigned arithmetic (mod `2^32`), is a valid volume; otherwise
`Subcommand::Build` yields no command. -/
theorem C2_setVolume_acceptance (a : String) :
    ((subcommandBuild ["set-sink-volume", a]).isSome ↔
      ∃ p, simpleAtoiU32 a = some p ∧
        paVolumeIsValid (p * PA_VOLUME_NORM % U32 / 100) = true) ∧
    ((subcommandBuild ["set-source-volume", a]).isSome ↔
      ∃ p, simpleAtoiU32 a = some p ∧
        paVolumeIsValid (p * PA_VOLUME_NORM % U32 / 100) = true) := by
  rw [subcommandBuild_setSinkVolume, subcommandBuild_setSourceVolume]
  constructor <;>
  · cases h : simpleAtoiU32 a with
    | none => simp [setVolumeBuild, isValidName, h]
    | some p =>
      cases hval : paVolumeIsValid (p * PA_VOLUME_NORM % U32 / 100) <;>
        simp [setVolumeBuild, isValidName, h, hval]

/-- Claim C3, counterexample: the claim says every accepted percentage is
echoed back.  `65536` is accepted — `65536 * PA_VOLUME_NORM` wraps to 0
mod `2^32`, giving internal volume 0, which is valid — but the program
prints 0, not 65536. -/
theorem C3_counterexample :
    subcommandBuild ["set-sink-volume", "65536"] = some (Command.setVolume true 0) ∧
    (setVolumeRun 0 (InfoResp.data ⟨[65536], false⟩) true).out = [0] ∧
    (0 : Nat) ≠ 65536 := by
  refine ⟨by decide, by decide, by decide⟩

/-- Claim C3, amended: for every accepted percentage `p ≤ 65535` (so that
`p * PA_VOLUME_NORM` does not wrap mod `2^32`), `set-sink-volume p` is
accepted with internal volume `p * PA_VOLUME_NORM / 100` and, on a
successful mutation, prints exactly `p` back. -/
theorem C3_echo (a : String) (p : Nat) (info : DeviceInfo)
    (hap : simpleAtoiU32 a = some p) (hp : p ≤ 65535) :
    subcommandBuild ["set-sink-volume", a] =
      some (Command.setVolume true (p * PA_VOLUME_NORM % U32 / 100)) ∧
    (setVolumeRun (p * PA_VOLUME_NORM % U32 / 100) (InfoResp.data info) true).out
      = [p] := by
  have hvalid : paVolumeIsValid (p * PA_VOLUME_NORM % U32 / 100) = true := by
    simp only [paVolumeIsValid, PA_VOLUME_NORM, U32, PA_VOLUME_MAX, decide_eq_true_eq]
    omega
  constructor
  · rw [subcommandBuild_setSinkVolume]
    simp [setVolumeBuild, isValidName, hap, hvalid]
  · simp only [setVolumeRun, List.cons.injEq, and_true, if_true]
    show printVolume (p * PA_VOLUME_NORM % U32 / 100) = p
    unfold printVolume PA_VOLUME_NORM U32
    have h1 : p * 65536 % 4294967296 = p * 65536 := Nat.mod_eq_of_lt (by omega)
    rw [h1]
    have h2 : p * 65536 / 100 * 100 + 65536 / 2 < 4294967296 := by omega
    rw [Nat.mod_eq_of_lt h2]
    omega

/-- Witness for `C3_echo` at argument `"90"`. -/
theorem C3_echo_witness :
    subcommandBuild ["set-sink-volume", "90"] =
      some (Command.setVolume true (90 * PA_VOLUME_NORM % U32 / 100)) ∧
    (setVolumeRun (90 * PA_VOLUME_NORM % U32 / 100)
      (InfoResp.data ⟨[100], false⟩) true).out = [90] :=
  C3_echo "90" 90 ⟨[100], false⟩ (by decide) (by decide)

/-- Claim C4, counterexample: `PrintVolume` computes
`(vol * 100 + PA_VOLUME_NORM / 2) / PA_VOLUME_NORM` in `uint32_t`
arithmetic.  At the valid volume `PA_VOLUME_MAX` = 2147483647 the product
wraps mod `2^32` and the program prints 0, while the plain-integer formula
of the claim gives 3276800 (and neither is the 100 the spec's boundary
remark suggests for an internal maximum). -/
theorem C4_counterexample :
    paVolumeIsValid 2147483647 = true ∧
    printVolume 2147483647 = 0 ∧
    (2147483647 * 100 + PA_VOLUME_NORM / 2) / PA_VOLUME_NORM = 3276800 ∧
    (0 : Nat) ≠ 3276800 ∧ (0 : Nat) ≠ 100 := by
  refine ⟨by decide, by decide, by decide, by decide, by decide⟩

/-- Claim C4, amended: the conversion is
`(v * 100 + PA_VOLUME_NORM / 2) / PA_VOLUME_NORM` evaluated in 32-bit
unsigned arithmetic, which agrees with the plain-integer formula whenever
`v * 100 + PA_VOLUME_NORM / 2 < 2^32`; it maps internal zero
(`PA_VOLUME_MUTED`) to 0 and internal full scale (`PA_VOLUME_NORM`) to
100. -/
theorem C4_print_formula (v : Nat) (hv : v * 100 + PA_VOLUME_NORM / 2 < U32) :
    printVolume v = (v * 100 + PA_VOLUME_NORM / 2) / PA_VOLUME_NORM ∧
    printVolume PA_VOLUME_MUTED = 0 ∧
    printVolume PA_VOLUME_NORM = 100 := by
  refine ⟨?_, by decide, by decide⟩
  unfold printVolume
  rw [Nat.mod_eq_of_lt hv]

/-- Witness for `C4_print_formula` at `v = 65536`. -/
theorem C4_print_formula_witness :
    printVolume 65536 = (65536 * 100 + PA_VOLUME_NORM / 2) / PA_VOLUME_NORM ∧
    printVolume PA_VOLUME_MUTED = 0 ∧
    printVolume PA_VOLUME_NORM = 100 :=
  C4_print_formula 65536 (by decide)

/-- Claim C5: for every accepted increment/decrement invocation, the
effective direction is the exclusive or of the argument's leading `-`
sign and the variant's polarity (`dec`); in particular
`decrement-sink-volume -5` increments by 5% (internal 3276) and
`increment-sink-volume -5` decrements by 5%. -/
theorem C5_sign_xor (name a : String) (dec : Bool) (cmd : AdjustCmd)
    (h : adjustVolumeBuild name dec [name, a] = some cmd) :
    cmd.neg = xor (decide (a.data.head? = some '-')) dec ∧
    subcommandBuild ["decrement-sink-volume", "-5"] =
      some (Command.adjVolume true false 3276) ∧
    subcommandBuild ["increment-sink-volume", "-5"] =
      some (Command.adjVolume true true 3276) := by
  refine ⟨?_, by decide, by decide⟩
  unfold adjustVolumeBuild isValidName at h
  simp only [eq_self_iff_true, if_true] at h
  cases hm : simpleAtoiU32Chars
      (if decide (a.data.head? = some '-') = true then a.data.tail else a.data) with
  | none => rw [hm] at h; simp at h
  | some p =>
    rw [hm] at h
    by_cases hval : paVolumeIsValid (p * PA_VOLUME_NORM % U32 / 100) = true
    · simp only [hval, eq_self_iff_true, if_true, Option.some.injEq] at h
      rw [← h]
    · simp [hval] at h

/-- Witness for `C5_sign_xor`: `decrement-sink-volume -5` builds a command
with effective direction `xor true true = false` (an increment). -/
theorem C5_sign_xor_witness :
    (⟨false, 3276⟩ : AdjustCmd).neg =
      xor (decide (("-5" : String).data.head? = some '-')) true ∧
    subcommandBuild ["decrement-sink-volume", "-5"] =
      some (Command.adjVolume true false 3276) ∧
    subcommandBuild ["increment-sink-volume", "-5"] =
      some (Command.adjVolume true true 3276) :=
  C5_sign_xor "decrement-sink-volume" "-5" true ⟨false, 3276⟩ (by decide)

/-- Claim C6: after a successful mutation, set-mute prints the muted
sentinel (`PA_VOLUME_MUTED`, i.e. 0) when the requested flag is
`mute = true` and the device's pre-operation average channel volume
otherwise; toggle-mute requests the negation of the device's current
mute flag and prints the sentinel exactly when the device was unmuted. -/
theorem C6_mute_print (mute : Bool) (info : DeviceInfo) :
    (setMuteRun mute (InfoResp.data info) true).out =
      [printVolume (if mute then PA_VOLUME_MUTED else paCvolumeAvg info.volume)] ∧
    (setMuteRun mute (InfoResp.data info) true).sentMute = some mute ∧
    (toggleMuteRun (InfoResp.data info) true).sentMute = some (!info.mute) ∧
    (toggleMuteRun (InfoResp.data info) true).out =
      [if info.mute then printVolume (paCvolumeAvg info.volume)
       else printVolume PA_VOLUME_MUTED] ∧
    printVolume PA_VOLUME_MUTED = 0 := by
  refine ⟨?_, ?_, ?_, ?_, by decide⟩ <;>
    cases hm : info.mute <;> simp [setMuteRun, toggleMuteRun, hm]

/-- Claim C7: every server-reported failure — an error on the info
response, or an unsuccessful mutation response — makes every subcommand
quit the run loop with failure status (exit 1) and print nothing; output
appears only on the success paths. -/
theorem C7_failure_terminal (vol adj : Nat) (neg mute : Bool) (info : DeviceInfo)
    (setOk : Bool) :
    getVolumeRun InfoResp.err = ⟨none, none, [], 1⟩ ∧
    getMuteRun InfoResp.err = ⟨none, none, [], 1⟩ ∧
    setVolumeRun vol InfoResp.err setOk = ⟨none, none, [], 1⟩ ∧
    adjustVolumeRun neg adj InfoResp.err setOk = ⟨none, none, [], 1⟩ ∧
    setMuteRun mute InfoResp.err setOk = ⟨none, none, [], 1⟩ ∧
    toggleMuteRun InfoResp.err setOk = ⟨none, none, [], 1⟩ ∧
    (setVolumeRun vol (InfoResp.data info) false).out = [] ∧
    (setVolumeRun vol (InfoResp.data info) false).exit = 1 ∧
    (adjustVolumeRun neg adj (InfoResp.data info) false).out = [] ∧
    (adjustVolumeRun neg adj (InfoResp.data info) false).exit = 1 ∧
    (setMuteRun mute (InfoResp.data info) false).out = [] ∧
    (setMuteRun mute (InfoResp.data info) false).exit = 1 ∧
    (toggleMuteRun (InfoResp.data info) false).out = [] ∧
    (toggleMuteRun (InfoResp.data info) false).exit = 1 := by
  refine ⟨rfl, rfl, rfl, rfl, rfl, rfl, ?_, ?_, ?_, ?_, ?_, ?_, ?_, ?_⟩ <;>
    simp [setVolumeRun, adjustVolumeRun, setMuteRun, toggleMuteRun]

/-- Claim C8: incrementing every channel by `n` and then decrementing by
`n` returns every channel to its original volume, provided no channel's
incremented value exceeded `PA_VOLUME_MAX` (no clamping in the increment
step). -/
theorem C8_inc_dec_roundtrip (n : Nat) (vs : List Nat)
    (h : ∀ v ∈ vs, v + n ≤ PA_VOLUME_MAX) :
    adjustCvolume true n (adjustCvolume false n vs) = vs := by
  have key : ∀ v, v + n ≤ PA_VOLUME_MAX →
      adjustChannel true n (adjustChannel false n v) = v := by
    intro v hv
    unfold adjustChannel PA_VOLUME_MAX U32 at *
    simp only [Bool.false_eq_true, if_false, if_true]
    omega
  induction vs with
  | nil => rfl
  | cons v vs ih =>
    simp only [adjustCvolume, List.map_cons] at ih ⊢
    rw [key v (h v (List.mem_cons_self v vs)),
      ih (fun v' hv' => h v' (List.mem_cons_of_mem _ hv'))]

/-- Witness for `C8_inc_dec_roundtrip` at `vs = [100]`, `n = 50`. -/
theorem C8_inc_dec_roundtrip_witness :
    adjustCvolume true 50 (adjustCvolume false 50 [100]) = [100] :=
  C8_inc_dec_roundtrip 50 [100] (by decide)

/-- Claim C9: set-mute takes exactly one argument, a boolean token per
`SimpleAtob`, and set-volume requires an argument that parses as an
integer; `set-sink-volume abc` and `set-sink-mute 2` both fail to parse
and yield no command. -/
theorem C9_arg_validation (a b : String) (rest : List String) :
    subcommandBuild ["set-sink-volume", "abc"] = none ∧
    subcommandBuild ["set-sink-mute", "2"] = none ∧
    setMuteBuild "set-sink-mute" ["set-sink-mute"] = none ∧
    setMuteBuild "set-sink-mute" ("set-sink-mute" :: a :: b :: rest) = none ∧
    setMuteBuild "set-sink-mute" ["set-sink-mute", a] = simpleAtob a ∧
    (setVolumeBuild "set-sink-volume" ["set-sink-volume", a] = none ∨
      (simpleAtoiU32 a).isSome = true) := by
  refine ⟨by decide, by decide, rfl, rfl, rfl, ?_⟩
  cases hm : simpleAtoiU32 a with
  | none => exact Or.inl (by simp [setVolumeBuild, isValidName, hm])
  | some p => exact Or.inr (by simp)

/-- Claim C10: the boolean vocabulary of `SimpleAtob` is strictly larger
than `0`/`1`/`true`/`false`: `yes`, `no`, `t`, `f`, `y`, `n` and case
variants such as `TRUE` are all accepted with the corresponding flag. -/
theorem C10_bool_vocab :
    subcommandBuild ["set-sink-mute", "yes"] = some (Command.setMute true true) ∧
    subcommandBuild ["set-sink-mute", "no"] = some (Command.setMute true false) ∧
    subcommandBuild ["set-sink-mute", "t"] = some (Command.setMute true true) ∧
    subcommandBuild ["set-sink-mute", "f"] = some (Command.setMute true false) ∧
    subcommandBuild ["set-sink-mute", "y"] = some (Command.setMute true true) ∧
    subcommandBuild ["set-sink-mute", "n"] = some (Command.setMute true false) ∧
    subcommandBuild ["set-sink-mute", "TRUE"] = some (Command.setMute true true) ∧
    subcommandBuild ["set-source-mute", "yes"] = some (Command.setMute false true) ∧
    ("yes" ∉ (["0", "1", "true", "false"] : List String)) := by
  refine ⟨by decide, by decide, by decide, by decide, by decide, by decide,
    by decide, by decide, by decide⟩

end Paknob
